import Mathlib

/-!
Shallow embedding of the passforge library (password / passphrase generation
and strength evaluation) together with proofs about its specification.

Conventions of the embedding:
* Rust `usize` values are modelled as `Nat`.
* The process-wide random source (`rand::thread_rng`) is modelled as an
  explicit stream of natural numbers that is threaded through every
  operation; a uniform draw in a bounded range is modelled by taking
  the next stream element modulo the size of the range.
* Fallible Rust code returning `Result<T, PassForgeError>` is modelled with
  `RunResult`; a Rust panic (an uncatchable fault, e.g. `gen_range` on an
  empty range) is modelled by the distinguished outcome `RunResult.panicked`.
* Strings are Lean `String`s; character tables are `List Char`.
-/

/-- Error type of the library, mirroring `PassForgeError` in `src/error.rs`.
Payloads that are structured in Rust (`io::Error`, `ParseIntError`) are
modelled as their display message. -/
inductive PassForgeError where
  | io : String → PassForgeError
  | invalidLength : String → PassForgeError
  | invalidWordCount : String → PassForgeError
  | invalidGenAmount : String → PassForgeError
  | invalidConfig : String → PassForgeError
  | wordListError : String → PassForgeError
  | strengthEvaluationError : String → PassForgeError
  | parseError : String → PassForgeError
  | randomError : PassForgeError
  | unknown : PassForgeError
deriving DecidableEq, Repr

/-- Outcome of running a fallible Rust computation: a normal value, a typed
error returned to the caller, or an uncatchable panic (with its message). -/
inductive RunResult (α : Type) where
  | ok : α → RunResult α
  | err : PassForgeError → RunResult α
  | panicked : String → RunResult α
deriving DecidableEq, Repr

/-- True exactly when the computation ended in a normal value. -/
def RunResult.isOk : RunResult α → Bool
  | .ok _ => true
  | _ => false

/-- True exactly when the computation ended in an `InvalidLength` error. -/
def RunResult.isInvalidLength : RunResult α → Bool
  | .err (.invalidLength _) => true
  | _ => false

/-- True exactly when the computation aborted with a panic. -/
def RunResult.isPanic : RunResult α → Bool
  | .panicked _ => true
  | _ => false

/-- The value produced by a successful stateful computation, with the final
random-source state discarded (`none` on error or panic). -/
def RunResult.valOf : RunResult (α × β) → Option α
  | .ok (a, _) => some a
  | _ => none

/-- The external random source: an infinite stream of natural numbers.
`rand::thread_rng` hands the program such a stream; each bounded draw
consumes one element. -/
def Rng : Type := Nat → Nat

/-- Consume one element of the random stream. -/
def rngNext (r : Rng) : Nat × Rng := (r 0, fun n => r (n + 1))

/-- Model of `rng.gen_range(0..n)` (half-open): uniform index below `n`.
The rand crate panics with "cannot sample empty range" when the range is
empty, i.e. when `n = 0`. -/
def genIndex (n : Nat) (r : Rng) : RunResult (Nat × Rng) :=
  if n = 0 then .panicked "cannot sample empty range"
  else
    let (v, r1) := rngNext r
    .ok (v % n, r1)

/-- Length specification from `src/config.rs`: `Length::Single(usize)` or
`Length::Range(RangeInclusive<usize>)` (kept as its two bounds). -/
inductive Length where
  | single : Nat → Length
  | range : Nat → Nat → Length
deriving DecidableEq, Repr

namespace Length

/-- Model of `Length::get_length` (`src/config.rs`): a `Single` length is
returned unchanged; a `Range` draws uniformly from the inclusive range with
`rand::thread_rng().gen_range(range.clone())`, which panics when the
inclusive range is empty (`lo > hi`). -/
def get_length : Length → Rng → RunResult (Nat × Rng)
  | .single n, r => .ok (n, r)
  | .range lo hi, r =>
    if hi < lo then .panicked "cannot sample empty range"
    else
      let (v, r1) := rngNext r
      .ok (lo + v % (hi - lo + 1), r1)

/-- A length specification whose range bounds are ordered; `Single` is
always well formed. The data model of the specification imposes
`min ≤ max` as a construction-side invariant. -/
def wellFormed : Length → Prop
  | .single _ => True
  | .range lo hi => lo ≤ hi

end Length

/-- Password configuration from `src/config.rs`. -/
structure PasswordConfig where
  length : Length
  capitals : Bool
  numbers : Bool
  symbols : Bool
deriving Repr

/-- Passphrase configuration from `src/config.rs`. The `word_list` field of
the Rust struct only selects the external source of lines (the embedded
resource file or a file on disk, both outside the library source); the
line sequence produced by that source is passed explicitly to the
generator functions below. -/
structure PassphraseConfig where
  words : Nat
  separator : String
deriving Repr

namespace PasswordGenerator

/-- Lowercase table from `src/generator/password.rs`. -/
def LOWERCASE : List Char := "abcdefghijklmnopqrstuvwxyz".toList

/-- Uppercase table from `src/generator/password.rs`. -/
def UPPERCASE : List Char := "ABCDEFGHIJKLMNOPQRSTUVWXYZ".toList

/-- Digit table from `src/generator/password.rs`. -/
def NUMBERS : List Char := "0123456789".toList

/-- Symbol table from `src/generator/password.rs` (the two brace characters
are written with escapes). -/
def SYMBOLS : List Char := "!@#$%^&*()-_=+[]\x7b\x7d|;:,.<>?".toList

/-- The character pool assembled in `PasswordGenerator::generate`:
lowercase always, then each further table exactly when its flag is set. -/
def poolOf (config : PasswordConfig) : List Char :=
  LOWERCASE
    ++ (if config.capitals then UPPERCASE else [])
    ++ (if config.numbers then NUMBERS else [])
    ++ (if config.symbols then SYMBOLS else [])

/-- The character-drawing loop of `PasswordGenerator::generate`: for each of
`n` positions draw `chars[rng.gen_range(0..chars.len())]`. -/
def drawChars (chars : List Char) : Nat → Rng → RunResult (List Char × Rng)
  | 0, r => .ok ([], r)
  | n + 1, r =>
    match genIndex chars.length r with
    | .ok (k, r1) =>
      match drawChars chars n r1 with
      | .ok (cs, r2) => .ok (chars.getD k 'a' :: cs, r2)
      | .err e => .err e
      | .panicked m => .panicked m
    | .err e => .err e
    | .panicked m => .panicked m

/-- Model of `PasswordGenerator::generate` (`src/generator/password.rs`):
resolve the length, reject lengths below 1 with `InvalidLength`, assemble
the pool and draw `length` characters with replacement. -/
def generate (config : PasswordConfig) (r : Rng) : RunResult (String × Rng) :=
  match config.length.get_length r with
  | .ok (length, r1) =>
    if length < 1 then
      .err (.invalidLength "Length of password cannot be less than 1")
    else
      match drawChars (poolOf config) length r1 with
      | .ok (cs, r2) => .ok (String.mk cs, r2)
      | .err e => .err e
      | .panicked m => .panicked m
  | .err e => .err e
  | .panicked m => .panicked m

/-- The collection loop of `PasswordGenerator::generate_multiple`:
`(0..amount).map(|_| generate(config)).collect()`, stopping at the first
error. -/
def genMany (config : PasswordConfig) : Nat → Rng → RunResult (List String × Rng)
  | 0, r => .ok ([], r)
  | n + 1, r =>
    match generate config r with
    | .ok (pw, r1) =>
      match genMany config n r1 with
      | .ok (pws, r2) => .ok (pw :: pws, r2)
      | .err e => .err e
      | .panicked m => .panicked m
    | .err e => .err e
    | .panicked m => .panicked m

/-- Model of `PasswordGenerator::generate_multiple`
(`src/generator/password.rs`): the guard is `if amount <= 1`, returning
`InvalidGenAmount` with the message "Amount cannot be smaller than 1". -/
def generate_multiple (config : PasswordConfig) (amount : Nat) (r : Rng) :
    RunResult (List String × Rng) :=
  if amount ≤ 1 then
    .err (.invalidGenAmount "Amount cannot be smaller than 1")
  else
    genMany config amount r

end PasswordGenerator

/-- Model of the rand crate's without-replacement selection loop used by
`SliceRandom::choose_multiple` (an external collaborator of the library):
while elements remain and more are wanted, pick a uniformly random
remaining element, remove it, and continue. The number of selected
elements is thereby clamped to the list length, exactly as the rand crate
documents for `choose_multiple`. -/
def chooseLoop : Nat → List α → Rng → List α × Rng
  | 0, _, r => ([], r)
  | _ + 1, [], r => ([], r)
  | n + 1, a :: t, r =>
    let (v, r1) := rngNext r
    let k := v % (a :: t).length
    let x := (a :: t).getD k a
    let (rest, r2) := chooseLoop n ((a :: t).eraseIdx k) r1
    (x :: rest, r2)

/-- Model of `word_list.choose_multiple(&mut rng, amount)`: select up to
`amount` distinct positions of the list, without replacement. -/
def chooseMultiple (r : Rng) (l : List α) (amount : Nat) : List α × Rng :=
  chooseLoop amount l r

namespace PassphraseGenerator

/-- Accumulating splitter behind `splitWhitespace`: walk the characters,
collecting the current token in reverse in `acc` and emitting it whenever a
whitespace character or the end of the input is reached. -/
def wsAux : List Char → List Char → List String
  | [], acc => if acc.isEmpty then [] else [String.mk acc.reverse]
  | c :: rest, acc =>
    if c.isWhitespace then
      if acc.isEmpty then wsAux rest []
      else String.mk acc.reverse :: wsAux rest []
    else wsAux rest (c :: acc)

/-- Model of Rust's `str::split_whitespace`: the maximal non-whitespace
runs of the string, in order, with no empty fragments. -/
def splitWhitespace (s : String) : List String :=
  wsAux s.toList []

/-- Model of `parts[1].parse::<String>()` as elaborated in
`get_word_list`: the target type of the `parse` call is inferred to be
`String`, whose `FromStr` instance is infallible, so the parse always
succeeds and returns the token unchanged. -/
def stringParse (s : String) : Option String := some s

/-- The per-line closure of `PassphraseGenerator::get_word_list`
(`src/generator/passphrase.rs`): split the line on whitespace; one token
is kept as the word; for two tokens, `parts[1].parse().ok()`; any other
token count skips the line. -/
def parseLine (line : String) : Option String :=
  match splitWhitespace line with
  | [w] => some w
  | [_, w] => stringParse w
  | _ => none

/-- Model of `PassphraseGenerator::get_word_list`: filter-map each line of
the loaded source through `parseLine` and fail with `WordListError` when
no word remains. The line sequence itself comes from `load_file`, which
reads either the embedded resource file or an external file; both are
outside the library source and are modelled as the given `lines`. -/
def get_word_list (lines : List String) : RunResult (List String) :=
  let words := lines.filterMap parseLine
  if words.isEmpty then
    .err (.wordListError "Word list is empty or invalid")
  else
    .ok words

/-- Model of `PassphraseGenerator::create_passphrase`
(`src/generator/passphrase.rs`): choose `words` words from the list
without replacement and join them with the separator. -/
def create_passphrase (word_list : List String) (words : Nat) (separator : String)
    (r : Rng) : RunResult (String × Rng) :=
  let (sel, r1) := chooseMultiple r word_list words
  .ok (String.intercalate separator sel, r1)

/-- Model of `PassphraseGenerator::generate`
(`src/generator/passphrase.rs`): the guard is `if config.words <= 1`,
returning `InvalidWordCount`; then the word list is loaded and a single
passphrase is assembled. -/
def generate (config : PassphraseConfig) (lines : List String) (r : Rng) :
    RunResult (String × Rng) :=
  if config.words ≤ 1 then
    .err (.invalidWordCount "Amount of words cannot be smaller than 1")
  else
    match get_word_list lines with
    | .ok wl => create_passphrase wl config.words config.separator r
    | .err e => .err e
    | .panicked m => .panicked m

/-- The collection loop of `PassphraseGenerator::generate_multiple`:
`(0..amount).map(|_| create_passphrase(..)).collect()`. -/
def phraseMany (wl : List String) (words : Nat) (separator : String) :
    Nat → Rng → RunResult (List String × Rng)
  | 0, r => .ok ([], r)
  | n + 1, r =>
    match create_passphrase wl words separator r with
    | .ok (p, r1) =>
      match phraseMany wl words separator n r1 with
      | .ok (ps, r2) => .ok (p :: ps, r2)
      | .err e => .err e
      | .panicked m => .panicked m
    | .err e => .err e
    | .panicked m => .panicked m

/-- Model of `PassphraseGenerator::generate_multiple`
(`src/generator/passphrase.rs`): the amount guard is `if amount <= 1`
with `InvalidGenAmount`, then the word-count guard `if config.words <= 1`
with `InvalidWordCount`, then the word list is loaded once and `amount`
passphrases are assembled. -/
def generate_multiple (config : PassphraseConfig) (lines : List String)
    (amount : Nat) (r : Rng) : RunResult (List String × Rng) :=
  if amount ≤ 1 then
    .err (.invalidGenAmount "Amount cannot be smaller than 1")
  else if config.words ≤ 1 then
    .err (.invalidWordCount "Amount of words cannot be smaller than 1")
  else
    match get_word_list lines with
    | .ok wl => phraseMany wl config.words config.separator amount r
    | .err e => .err e
    | .panicked m => .panicked m

end PassphraseGenerator
namespace ZxcvbnAnalysis

/-- Minimum passing score, `ZxcvbnAnalysis::MIN_PASS_SCORE`. -/
def MIN_PASS_SCORE : Nat := 3

/-- Model of `ZxcvbnAnalysis::passes_threshold`
(`src/strength_evaluator/zxcvbn_analysis.rs`). The zxcvbn crate is an
external collaborator treated as an opaque scoring oracle; `score` models
`zxcvbn(input, &[]).score()`. Empty input fails with `InvalidLength`;
otherwise the result is whether the score reaches `MIN_PASS_SCORE`. -/
def passes_threshold (score : String → Nat) (input : String) : RunResult Bool :=
  if input.isEmpty then
    .err (.invalidLength "Password cannot be empty")
  else
    .ok (decide (MIN_PASS_SCORE ≤ score input))

/-- Model of `ZxcvbnAnalysis::evaluate`
(`src/strength_evaluator/zxcvbn_analysis.rs`). `score` models
`zxcvbn(input, &[]).score()` and `crack` models the rendered
`offline_slow_hashing_1e4_per_second` crack-time estimate of the same
oracle. Empty input fails with `InvalidLength`; otherwise the rendered
report string is returned. -/
def evaluate (score : String → Nat) (crack : String → String) (input : String) :
    RunResult String :=
  if input.isEmpty then
    .err (.invalidLength "Input password cannot be empty")
  else
    .ok ("Score: " ++ toString (score input) ++ "/4, Crack time: " ++ crack input)

end ZxcvbnAnalysis

/-- Modelled from the spec: the integer-parse test that section 4.3 of the
specification applies to the first token of a two-token word-list line
("only if the first token parses as an integer"), i.e. Rust's `str::parse`
to an integer type: an optional sign followed by at least one ASCII digit
(overflow ignored). This definition exists only to state the claim about
that test; the library source never performs such a parse. -/
def specIntegerToken (s : String) : Bool :=
  match s.toList with
  | [] => false
  | '+' :: rest => !rest.isEmpty && rest.all Char.isDigit
  | '-' :: rest => !rest.isEmpty && rest.all Char.isDigit
  | l => l.all Char.isDigit

/-! Helper lemmas about the embedded operations. -/

theorem genIndex_ok_lt {n k : Nat} {r r1 : Rng} (h : genIndex n r = .ok (k, r1)) :
    k < n := by
  unfold genIndex at h
  split at h
  · cases h
  · rename_i hn
    simp only [rngNext] at h
    cases h
    exact Nat.mod_lt _ (Nat.pos_of_ne_zero hn)

theorem genIndex_ok_of_pos {n : Nat} (hn : 0 < n) (r : Rng) :
    genIndex n r = .ok (r 0 % n, fun m => r (m + 1)) := by
  unfold genIndex
  rw [if_neg (Nat.pos_iff_ne_zero.mp hn)]
  rfl

namespace PasswordGenerator

theorem drawChars_mem {chars : List Char} :
    ∀ {n : Nat} {r : Rng} {cs : List Char} {r2 : Rng},
      drawChars chars n r = .ok (cs, r2) → ∀ c ∈ cs, c ∈ chars := by
  intro n
  induction n with
  | zero =>
    intro r cs r2 h
    unfold drawChars at h
    cases h
    intro c hc
    cases hc
  | succ n ih =>
    intro r cs r2 h
    unfold drawChars at h
    split at h
    · rename_i k r1 hg
      split at h
      · rename_i cs0 r20 hrec
        cases h
        intro c hc
        rcases List.mem_cons.mp hc with hc | hc
        · subst hc
          have hk : k < chars.length := genIndex_ok_lt hg
          rw [List.getD_eq_getElem _ _ hk]
          exact List.getElem_mem hk
        · exact ih hrec c hc
      · cases h
      · cases h
    · cases h
    · cases h

theorem drawChars_total {chars : List Char} (hpos : 0 < chars.length) :
    ∀ (n : Nat) (r : Rng),
      ∃ cs r2, drawChars chars n r = .ok (cs, r2) ∧ cs.length = n := by
  intro n
  induction n with
  | zero => intro r; exact ⟨[], r, rfl, rfl⟩
  | succ n ih =>
    intro r
    obtain ⟨cs, r2, hd, hl⟩ := ih (fun m => r (m + 1))
    refine ⟨chars.getD (r 0 % chars.length) 'a' :: cs, r2, ?_, by simp [hl]⟩
    unfold drawChars
    rw [genIndex_ok_of_pos hpos]
    dsimp only
    rw [hd]

theorem LOWERCASE_length : LOWERCASE.length = 26 := by decide

theorem poolOf_pos (config : PasswordConfig) : 0 < (poolOf config).length := by
  unfold poolOf
  simp only [List.length_append]
  have h := LOWERCASE_length
  omega

theorem mem_poolOf {config : PasswordConfig} {c : Char} (h : c ∈ poolOf config) :
    c ∈ LOWERCASE ∨ (config.capitals = true ∧ c ∈ UPPERCASE)
      ∨ (config.numbers = true ∧ c ∈ NUMBERS)
      ∨ (config.symbols = true ∧ c ∈ SYMBOLS) := by
  unfold poolOf at h
  simp only [List.mem_append] at h
  rcases h with ((h | h) | h) | h
  · exact Or.inl h
  · cases hc : config.capitals
    · rw [hc] at h; cases h
    · exact Or.inr (Or.inl ⟨rfl, by rwa [hc] at h⟩)
  · cases hc : config.numbers
    · rw [hc] at h; cases h
    · exact Or.inr (Or.inr (Or.inl ⟨rfl, by rwa [hc] at h⟩))
  · cases hc : config.symbols
    · rw [hc] at h; cases h
    · exact Or.inr (Or.inr (Or.inr ⟨rfl, by rwa [hc] at h⟩))

theorem class_disjoint :
    (∀ c ∈ LOWERCASE, c ∉ UPPERCASE ∧ c ∉ NUMBERS ∧ c ∉ SYMBOLS)
    ∧ (∀ c ∈ UPPERCASE, c ∉ LOWERCASE ∧ c ∉ NUMBERS ∧ c ∉ SYMBOLS)
    ∧ (∀ c ∈ NUMBERS, c ∉ LOWERCASE ∧ c ∉ UPPERCASE ∧ c ∉ SYMBOLS)
    ∧ (∀ c ∈ SYMBOLS, c ∉ LOWERCASE ∧ c ∉ UPPERCASE ∧ c ∉ NUMBERS) := by
  decide

theorem generate_ok_of {config : PasswordConfig} {r r1 : Rng} {n : Nat}
    (hg : config.length.get_length r = .ok (n, r1)) (h1 : ¬ n < 1)
    {cs : List Char} {r2 : Rng}
    (hd : drawChars (poolOf config) n r1 = .ok (cs, r2)) :
    generate config r = .ok (String.mk cs, r2) := by
  unfold generate
  rw [hg]
  dsimp only
  rw [if_neg h1, hd]

theorem generate_valOf_inv {config : PasswordConfig} {r : Rng} {pw : String}
    (h : (generate config r).valOf = some pw) :
    ∃ n r1 cs r2, config.length.get_length r = .ok (n, r1) ∧ ¬ n < 1
      ∧ drawChars (poolOf config) n r1 = .ok (cs, r2) ∧ pw = String.mk cs := by
  unfold generate at h
  split at h
  · rename_i n r1 hg
    split at h
    · cases h
    · rename_i h1
      split at h
      · rename_i cs r2 hd
        cases h
        exact ⟨n, r1, cs, r2, hg, h1, hd, rfl⟩
      · cases h
      · cases h
  · cases h
  · cases h

end PasswordGenerator

/-- Helper lemma: removing the element at an in-bounds index and putting it
back in front is a permutation of the original list. -/
theorem perm_getElem_cons_eraseIdx :
    ∀ (l : List α) (k : Nat) (h : k < l.length), l.Perm (l[k] :: l.eraseIdx k)
  | [], k, h => absurd h (by simp)
  | a :: t, 0, _ => by simp
  | a :: t, k + 1, h => by
    have hk : k < t.length := by simpa using h
    have ih := perm_getElem_cons_eraseIdx t k hk
    have h1 : (a :: t).Perm (a :: (t[k] :: t.eraseIdx k)) := ih.cons a
    have h2 : (a :: (t[k] :: t.eraseIdx k)).Perm (t[k] :: a :: t.eraseIdx k) :=
      List.Perm.swap _ _ _
    have h3 := h1.trans h2
    simpa [List.eraseIdx_cons_succ] using h3

theorem chooseLoop_length :
    ∀ (n : Nat) (l : List α) (r : Rng), (chooseLoop n l r).1.length = min n l.length := by
  intro n
  induction n with
  | zero => intro l r; simp [chooseLoop]
  | succ n ih =>
    intro l r
    cases l with
    | nil => simp [chooseLoop]
    | cons a t =>
      unfold chooseLoop
      dsimp only [rngNext]
      have hk : r 0 % (a :: t).length < (a :: t).length :=
        Nat.mod_lt _ (by simp)
      rw [List.length_cons, ih]
      rw [List.length_eraseIdx, if_pos hk]
      simp only [List.length_cons]
      omega

theorem chooseLoop_subperm :
    ∀ (n : Nat) (l : List α) (r : Rng), (chooseLoop n l r).1.Subperm l := by
  intro n
  induction n with
  | zero => intro l r; exact List.nil_subperm
  | succ n ih =>
    intro l r
    cases l with
    | nil => exact List.nil_subperm
    | cons a t =>
      unfold chooseLoop
      dsimp only [rngNext]
      have hk : r 0 % (a :: t).length < (a :: t).length :=
        Nat.mod_lt _ (by simp)
      rw [List.getD_eq_getElem _ _ hk]
      have hrest := ih ((a :: t).eraseIdx (r 0 % (a :: t).length)) (fun m => r (m + 1))
      have hperm := perm_getElem_cons_eraseIdx (a :: t) (r 0 % (a :: t).length) hk
      exact ((List.subperm_cons _).mpr hrest).trans hperm.symm.subperm

/-- Without-replacement draws from a duplicate-free list are pairwise
distinct, and every drawn element comes from the list. -/
theorem chooseMultiple_nodup {l : List α} (hnd : l.Nodup) (r : Rng) (n : Nat) :
    (chooseMultiple r l n).1.Nodup ∧ ∀ x ∈ (chooseMultiple r l n).1, x ∈ l := by
  obtain ⟨m, hp, hs⟩ := chooseLoop_subperm n l r
  constructor
  · exact hp.nodup (hs.nodup hnd)
  · intro x hx
    exact (chooseLoop_subperm n l r).subset hx

namespace PassphraseGenerator

theorem create_passphrase_eq (word_list : List String) (words : Nat) (separator : String)
    (r : Rng) :
    create_passphrase word_list words separator r
      = .ok (String.intercalate separator (chooseMultiple r word_list words).1,
          (chooseMultiple r word_list words).2) := rfl

theorem phrase_generate_ok {config : PassphraseConfig} {lines wl : List String} (r : Rng)
    (hw : ¬ config.words ≤ 1) (hl : get_word_list lines = .ok wl) :
    generate config lines r
      = .ok (String.intercalate config.separator (chooseMultiple r wl config.words).1,
          (chooseMultiple r wl config.words).2) := by
  unfold generate
  rw [if_neg hw, hl]
  dsimp only
  rw [create_passphrase_eq]

theorem phrase_generate_valOf_inv {config : PassphraseConfig} {lines : List String} {r : Rng}
    {s : String} (h : (generate config lines r).valOf = some s) :
    ¬ config.words ≤ 1 ∧ ∃ wl, get_word_list lines = .ok wl
      ∧ s = String.intercalate config.separator (chooseMultiple r wl config.words).1 := by
  unfold generate at h
  split at h
  · simp [RunResult.valOf] at h
  · rename_i hw
    split at h
    · rename_i wl hl
      rw [create_passphrase_eq] at h
      simp only [RunResult.valOf] at h
      cases h
      exact ⟨hw, wl, hl, rfl⟩
    · simp [RunResult.valOf] at h
    · simp [RunResult.valOf] at h

theorem get_word_list_no_panic (lines : List String) :
    (get_word_list lines).isPanic = false := by
  unfold get_word_list
  dsimp only
  split <;> rfl

theorem phraseMany_no_panic (wl : List String) (words : Nat) (separator : String) :
    ∀ (n : Nat) (r : Rng), (phraseMany wl words separator n r).isPanic = false := by
  intro n
  induction n with
  | zero => intro r; rfl
  | succ n ih =>
    intro r
    unfold phraseMany
    rw [create_passphrase_eq]
    dsimp only
    have hrec := ih (chooseMultiple r wl words).2
    cases hM : phraseMany wl words separator n (chooseMultiple r wl words).2 with
    | ok p => rfl
    | err e => rfl
    | panicked m => rw [hM] at hrec; cases hrec

theorem phrase_generate_no_panic (config : PassphraseConfig) (lines : List String) (r : Rng) :
    (generate config lines r).isPanic = false := by
  unfold generate
  split
  · rfl
  · have hnp := get_word_list_no_panic lines
    cases hW : get_word_list lines with
    | ok wl => rfl
    | err e => rfl
    | panicked m => rw [hW] at hnp; cases hnp

theorem phrase_generate_multiple_no_panic (config : PassphraseConfig) (lines : List String)
    (amount : Nat) (r : Rng) :
    (generate_multiple config lines amount r).isPanic = false := by
  unfold generate_multiple
  split
  · rfl
  · split
    · rfl
    · have hnp := get_word_list_no_panic lines
      cases hW : get_word_list lines with
      | ok wl => exact phraseMany_no_panic wl config.words config.separator amount r
      | err e => rfl
      | panicked m => rw [hW] at hnp; cases hnp

end PassphraseGenerator

namespace PasswordGenerator

theorem get_length_ok_of_wellFormed (L : Length) (r : Rng) (hwf : L.wellFormed) :
    ∃ n r1, L.get_length r = .ok (n, r1) := by
  cases L with
  | single m => exact ⟨m, r, rfl⟩
  | range lo hi =>
    have hle : lo ≤ hi := hwf
    refine ⟨lo + r 0 % (hi - lo + 1), fun m => r (m + 1), ?_⟩
    unfold Length.get_length
    dsimp only
    rw [if_neg (Nat.not_lt.mpr hle)]
    rfl

theorem generate_no_panic (config : PasswordConfig) (r : Rng)
    (hwf : config.length.wellFormed) : (generate config r).isPanic = false := by
  obtain ⟨n, r1, hg⟩ := get_length_ok_of_wellFormed config.length r hwf
  by_cases h1 : n < 1
  · unfold generate
    rw [hg]
    dsimp only
    rw [if_pos h1]
    rfl
  · obtain ⟨cs, r2, hd, _⟩ := drawChars_total (poolOf_pos config) n r1
    rw [generate_ok_of hg h1 hd]
    rfl

theorem genMany_no_panic (config : PasswordConfig) (hwf : config.length.wellFormed) :
    ∀ (n : Nat) (r : Rng), (genMany config n r).isPanic = false := by
  intro n
  induction n with
  | zero => intro r; rfl
  | succ n ih =>
    intro r
    unfold genMany
    have hnp := generate_no_panic config r hwf
    cases hG : generate config r with
    | ok p =>
      dsimp only
      have hrec := ih p.2
      cases hM : genMany config n p.2 with
      | ok q => rfl
      | err e => rfl
      | panicked m => rw [hM] at hrec; cases hrec
    | err e => rfl
    | panicked m => rw [hG] at hnp; cases hnp

theorem generate_multiple_no_panic (config : PasswordConfig) (amount : Nat) (r : Rng)
    (hwf : config.length.wellFormed) :
    (generate_multiple config amount r).isPanic = false := by
  unfold generate_multiple
  split
  · rfl
  · exact genMany_no_panic config hwf amount r

end PasswordGenerator

namespace ZxcvbnAnalysis

theorem passes_threshold_no_panic (score : String → Nat) (input : String) :
    (passes_threshold score input).isPanic = false := by
  unfold passes_threshold
  split <;> rfl

theorem evaluate_no_panic (score : String → Nat) (crack : String → String)
    (input : String) : (evaluate score crack input).isPanic = false := by
  unfold evaluate
  split <;> rfl

end ZxcvbnAnalysis

/-! Theorems for the specification claims. -/

/-- C1: the specification claims both `generate_multiple` functions fail
with `InvalidGenAmount` exactly when `amount < 1`, so that `amount == 1`
is valid and returns a one-element vector. The code's guard is
`amount <= 1`, so evaluating both generators at the failing input
`amount = 1` yields the `InvalidGenAmount` error — even though the error
message itself says the amount "cannot be smaller than 1". -/
theorem generate_multiple_rejects_amount_one :
    PasswordGenerator.generate_multiple ⟨Length.single 8, true, true, true⟩ 1 (fun _ => 0)
      = .err (.invalidGenAmount "Amount cannot be smaller than 1")
    ∧ PassphraseGenerator.generate_multiple ⟨4, "-"⟩
        ["alpha", "beta", "gamma", "delta"] 1 (fun _ => 0)
      = .err (.invalidGenAmount "Amount cannot be smaller than 1") :=
  ⟨rfl, rfl⟩

/-- C2 counterexample: with a loaded word list of 2 words and
`word_count = 3`, `PassphraseGenerator::generate` does not return an
`InvalidWordCount` error; it returns `Ok` with a passphrase made of only
the 2 available words, because `choose_multiple` clamps the requested
amount to the list length. -/
theorem word_count_exceeding_list_size_returns_ok :
    PassphraseGenerator.get_word_list ["alpha", "beta"] = .ok ["alpha", "beta"]
    ∧ (["alpha", "beta"] : List String).length < 3
    ∧ (PassphraseGenerator.generate ⟨3, "-"⟩ ["alpha", "beta"] (fun _ => 0)).valOf
        = some "alpha-beta"
    ∧ (PassphraseGenerator.generate ⟨3, "-"⟩ ["alpha", "beta"] (fun _ => 0)).isOk
        = true :=
  ⟨rfl, by decide, rfl, rfl⟩

/-- C2 amended: when `word_count` exceeds the size of the loaded word list
(and `word_count > 1` so the guard passes), `generate` succeeds and
returns a passphrase built from `min word_count list_size` words — all
the available words — instead of failing with `InvalidWordCount`. -/
theorem generate_clamps_word_count_to_list_size (config : PassphraseConfig)
    (lines wl : List String) (r : Rng) (hw : 1 < config.words)
    (hl : PassphraseGenerator.get_word_list lines = .ok wl) :
    ∃ sel, sel.length = min config.words wl.length
      ∧ (PassphraseGenerator.generate config lines r).valOf
          = some (String.intercalate config.separator sel) := by
  refine ⟨(chooseMultiple r wl config.words).1, chooseLoop_length config.words wl r, ?_⟩
  rw [PassphraseGenerator.phrase_generate_ok r (by omega) hl]
  rfl

/-- Witness for the amended C2 theorem at a concrete input. -/
theorem generate_clamps_word_count_to_list_size_witness :
    ∃ sel, sel.length = min 3 (["alpha", "beta"] : List String).length
      ∧ (PassphraseGenerator.generate ⟨3, "-"⟩ ["alpha", "beta"] (fun _ => 0)).valOf
          = some (String.intercalate "-" sel) :=
  generate_clamps_word_count_to_list_size ⟨3, "-"⟩ ["alpha", "beta"] ["alpha", "beta"]
    (fun _ => 0) (by decide) rfl

/-- C3 counterexample: the line "abc def" splits into exactly two tokens
whose first token does not parse as an integer, yet the parser keeps the
second token as a word — the claimed integer check does not exist, since
the code parses the second token into `String`, which never fails. -/
theorem two_token_line_kept_despite_non_integer_rank :
    PassphraseGenerator.splitWhitespace "abc def" = ["abc", "def"]
    ∧ specIntegerToken "abc" = false
    ∧ PassphraseGenerator.parseLine "abc def" = some "def"
    ∧ PassphraseGenerator.get_word_list ["abc def"] = .ok ["def"] :=
  ⟨rfl, rfl, rfl, rfl⟩

/-- C3 amended: for every word-list line that splits into exactly two
whitespace-separated tokens, the parser always keeps the second token as
the word; the first token is discarded without any integer check. -/
theorem two_token_line_always_keeps_second_token (line a b : String)
    (h : PassphraseGenerator.splitWhitespace line = [a, b]) :
    PassphraseGenerator.parseLine line = some b := by
  unfold PassphraseGenerator.parseLine
  rw [h]
  rfl

/-- Witness for the amended C3 theorem at a concrete input. -/
theorem two_token_line_always_keeps_second_token_witness :
    PassphraseGenerator.parseLine "11111 about" = some "about" :=
  two_token_line_always_keeps_second_token "11111 about" "11111" "about" rfl

/-- C4: every character of a successfully generated password belongs to an
enabled character class, and when uppercase, digits, or symbols are
disabled, no character of that class appears in the output, for any
length specification. -/
theorem password_chars_only_from_enabled_classes (config : PasswordConfig) (r : Rng)
    (pw : String) (h : (PasswordGenerator.generate config r).valOf = some pw) :
    ∀ c ∈ pw.data,
      (c ∈ PasswordGenerator.LOWERCASE
        ∨ (config.capitals = true ∧ c ∈ PasswordGenerator.UPPERCASE)
        ∨ (config.numbers = true ∧ c ∈ PasswordGenerator.NUMBERS)
        ∨ (config.symbols = true ∧ c ∈ PasswordGenerator.SYMBOLS))
      ∧ (config.capitals = false → c ∉ PasswordGenerator.UPPERCASE)
      ∧ (config.numbers = false → c ∉ PasswordGenerator.NUMBERS)
      ∧ (config.symbols = false → c ∉ PasswordGenerator.SYMBOLS) := by
  obtain ⟨n, r1, cs, r2, hg, h1, hd, hpw⟩ := PasswordGenerator.generate_valOf_inv h
  subst hpw
  intro c hc
  have hcs : c ∈ cs := hc
  have hpool := PasswordGenerator.drawChars_mem hd c hcs
  have hdec := PasswordGenerator.mem_poolOf hpool
  obtain ⟨dL, dU, dN, dS⟩ := PasswordGenerator.class_disjoint
  refine ⟨hdec, ?_, ?_, ?_⟩
  · intro hcap hmem
    rcases hdec with hL | ⟨hf, _⟩ | ⟨_, hN⟩ | ⟨_, hS⟩
    · exact (dL c hL).1 hmem
    · rw [hcap] at hf; cases hf
    · exact (dN c hN).2.1 hmem
    · exact (dS c hS).2.1 hmem
  · intro hnum hmem
    rcases hdec with hL | ⟨_, hU⟩ | ⟨hf, _⟩ | ⟨_, hS⟩
    · exact (dL c hL).2.1 hmem
    · exact (dU c hU).2.1 hmem
    · rw [hnum] at hf; cases hf
    · exact (dS c hS).2.2 hmem
  · intro hsym hmem
    rcases hdec with hL | ⟨_, hU⟩ | ⟨_, hN⟩ | ⟨hf, _⟩
    · exact (dL c hL).2.2 hmem
    · exact (dU c hU).2.2 hmem
    · exact (dN c hN).2.2 hmem
    · rw [hsym] at hf; cases hf

/-- Witness for the C4 theorem at a concrete run with all optional classes
disabled. -/
theorem password_chars_only_from_enabled_classes_witness :
    ('a' ∈ PasswordGenerator.LOWERCASE
        ∨ (false = true ∧ 'a' ∈ PasswordGenerator.UPPERCASE)
        ∨ (false = true ∧ 'a' ∈ PasswordGenerator.NUMBERS)
        ∨ (false = true ∧ 'a' ∈ PasswordGenerator.SYMBOLS))
      ∧ (false = false → 'a' ∉ PasswordGenerator.UPPERCASE)
      ∧ (false = false → 'a' ∉ PasswordGenerator.NUMBERS)
      ∧ (false = false → 'a' ∉ PasswordGenerator.SYMBOLS) :=
  password_chars_only_from_enabled_classes
    ⟨Length.single 2, false, false, false⟩ (fun _ => 0) "aa" rfl 'a' (by decide)

/-- C5: for every configuration with a `Single n` (Fixed) length and
`n ≥ 1`, password generation succeeds and the output has length exactly
`n`. -/
theorem password_fixed_length_exact (config : PasswordConfig) (r : Rng) (n : Nat)
    (hn : 1 ≤ n) (hl : config.length = Length.single n) :
    ∃ pw, (PasswordGenerator.generate config r).valOf = some pw ∧ pw.length = n := by
  have hg : config.length.get_length r = .ok (n, r) := by rw [hl]; rfl
  obtain ⟨cs, r2, hd, hlen⟩ :=
    PasswordGenerator.drawChars_total (PasswordGenerator.poolOf_pos config) n r
  refine ⟨String.mk cs, ?_, ?_⟩
  · rw [PasswordGenerator.generate_ok_of hg (by omega) hd]
    rfl
  · exact hlen

/-- Witness for the C5 theorem at a concrete input. -/
theorem password_fixed_length_exact_witness :
    ∃ pw, (PasswordGenerator.generate ⟨Length.single 5, true, true, true⟩
        (fun _ => 0)).valOf = some pw ∧ pw.length = 5 :=
  password_fixed_length_exact ⟨Length.single 5, true, true, true⟩ (fun _ => 0) 5
    (by decide) rfl

/-- C6: for every scoring oracle and every non-empty input, the boolean
returned by `passes_threshold` is true exactly when the numeric score that
`evaluate` computes (and renders into its report) on the same input is at
least 3; both operations query the same oracle once on the same input. -/
theorem passes_threshold_agrees_with_evaluate_score (score : String → Nat)
    (crack : String → String) (x : String) (hx : x ≠ "") :
    ZxcvbnAnalysis.evaluate score crack x
        = .ok ("Score: " ++ toString (score x) ++ "/4, Crack time: " ++ crack x)
    ∧ (ZxcvbnAnalysis.passes_threshold score x = .ok true
        ↔ ZxcvbnAnalysis.MIN_PASS_SCORE ≤ score x) := by
  have hne : x.isEmpty = false := by
    cases h : x.isEmpty
    · rfl
    · exact absurd ((String.isEmpty_iff x).mp h) hx
  constructor
  · unfold ZxcvbnAnalysis.evaluate
    rw [if_neg (by simp [hne])]
  · unfold ZxcvbnAnalysis.passes_threshold
    rw [if_neg (by simp [hne])]
    simp [RunResult.ok.injEq, decide_eq_true_eq]

/-- Witness for the C6 theorem at a concrete oracle and input. -/
theorem passes_threshold_agrees_with_evaluate_score_witness :
    ZxcvbnAnalysis.evaluate (fun _ => 4) (fun _ => "centuries") "abc"
        = .ok ("Score: " ++ toString 4 ++ "/4, Crack time: " ++ "centuries")
    ∧ (ZxcvbnAnalysis.passes_threshold (fun _ => 4) "abc" = .ok true
        ↔ ZxcvbnAnalysis.MIN_PASS_SCORE ≤ 4) :=
  passes_threshold_agrees_with_evaluate_score (fun _ => 4) (fun _ => "centuries")
    "abc" (by decide)

/-- C7 counterexample: the word-list provider performs no deduplication, so
a custom source whose two lines are both "a" loads as the list
`["a", "a"]`; a two-word passphrase generated from it selects two distinct
positions but equal words, and the claim that the selected words are
pairwise distinct fails. -/
theorem duplicate_word_list_gives_repeated_words :
    PassphraseGenerator.get_word_list ["a", "a"] = .ok ["a", "a"]
    ∧ ¬ (["a", "a"] : List String).Nodup
    ∧ (chooseMultiple (fun _ => 0) ["a", "a"] 2).1 = ["a", "a"]
    ∧ (PassphraseGenerator.generate ⟨2, "-"⟩ ["a", "a"] (fun _ => 0)).valOf
        = some "a-a" :=
  ⟨rfl, by decide, rfl, rfl⟩

/-- C7 amended: the words of one passphrase are drawn without replacement
from distinct positions of the loaded list, so whenever the loaded word
list is duplicate-free the selected words are pairwise distinct (and all
come from the list). -/
theorem passphrase_words_distinct_of_nodup_list (config : PassphraseConfig)
    (lines wl : List String) (r : Rng) (s : String) (hnd : wl.Nodup)
    (hl : PassphraseGenerator.get_word_list lines = .ok wl)
    (h : (PassphraseGenerator.generate config lines r).valOf = some s) :
    ∃ sel, s = String.intercalate config.separator sel ∧ sel.Nodup
      ∧ ∀ w ∈ sel, w ∈ wl := by
  obtain ⟨hw, wl2, hl2, hs⟩ := PassphraseGenerator.phrase_generate_valOf_inv h
  rw [hl] at hl2
  cases hl2
  obtain ⟨h1, h2⟩ := chooseMultiple_nodup hnd r config.words
  exact ⟨(chooseMultiple r wl config.words).1, hs, h1, h2⟩

/-- Witness for the amended C7 theorem at a concrete run. -/
theorem passphrase_words_distinct_of_nodup_list_witness :
    ∃ sel, "alpha-beta" = String.intercalate "-" sel ∧ sel.Nodup
      ∧ ∀ w ∈ sel, w ∈ (["alpha", "beta", "gamma"] : List String) :=
  passphrase_words_distinct_of_nodup_list ⟨2, "-"⟩ ["alpha", "beta", "gamma"]
    ["alpha", "beta", "gamma"] (fun _ => 0) "alpha-beta" (by decide) rfl rfl

/-- C8: both evaluator operations fail (with an `InvalidLength` error)
exactly on the empty input, and succeed exactly on non-empty inputs, for
every scoring oracle. -/
theorem evaluator_errors_iff_input_empty (score : String → Nat)
    (crack : String → String) (x : String) :
    (ZxcvbnAnalysis.passes_threshold score x).isInvalidLength = x.isEmpty
    ∧ (ZxcvbnAnalysis.passes_threshold score x).isOk = !x.isEmpty
    ∧ (ZxcvbnAnalysis.evaluate score crack x).isInvalidLength = x.isEmpty
    ∧ (ZxcvbnAnalysis.evaluate score crack x).isOk = !x.isEmpty := by
  unfold ZxcvbnAnalysis.passes_threshold ZxcvbnAnalysis.evaluate
  cases h : x.isEmpty <;>
    simp [h, RunResult.isInvalidLength, RunResult.isOk]

/-- C9 counterexample: with the length specification `Range(2, 1)`
(min > max), password generation does not return a typed result: the
uniform draw from the empty inclusive range aborts with a panic, which
also propagates out of `generate_multiple`. -/
theorem empty_range_config_panics :
    PasswordGenerator.generate ⟨Length.range 2 1, true, true, true⟩ (fun _ => 0)
      = .panicked "cannot sample empty range"
    ∧ PasswordGenerator.generate_multiple ⟨Length.range 2 1, true, true, true⟩ 2
        (fun _ => 0) = .panicked "cannot sample empty range"
    ∧ (PasswordGenerator.generate ⟨Length.range 2 1, true, true, true⟩
        (fun _ => 0)).isPanic = true :=
  ⟨rfl, rfl, rfl⟩

/-- C9 amended: for every configuration whose length specification is well
formed (any `Single`, or a `Range` with min ≤ max), all core operations
terminate with a typed result and never panic; the passphrase operations
and the evaluator never panic for any configuration at all. -/
theorem operations_no_panic_for_wellformed_lengths (config : PasswordConfig)
    (pconfig : PassphraseConfig) (lines : List String) (amount : Nat) (r : Rng)
    (score : String → Nat) (crack : String → String) (x : String)
    (hwf : config.length.wellFormed) :
    (PasswordGenerator.generate config r).isPanic = false
    ∧ (PasswordGenerator.generate_multiple config amount r).isPanic = false
    ∧ (PassphraseGenerator.generate pconfig lines r).isPanic = false
    ∧ (PassphraseGenerator.generate_multiple pconfig lines amount r).isPanic = false
    ∧ (ZxcvbnAnalysis.evaluate score crack x).isPanic = false
    ∧ (ZxcvbnAnalysis.passes_threshold score x).isPanic = false :=
  ⟨PasswordGenerator.generate_no_panic config r hwf,
   PasswordGenerator.generate_multiple_no_panic config amount r hwf,
   PassphraseGenerator.phrase_generate_no_panic pconfig lines r,
   PassphraseGenerator.phrase_generate_multiple_no_panic pconfig lines amount r,
   ZxcvbnAnalysis.evaluate_no_panic score crack x,
   ZxcvbnAnalysis.passes_threshold_no_panic score x⟩

/-- Witness for the amended C9 theorem at concrete inputs. -/
theorem operations_no_panic_for_wellformed_lengths_witness :
    (PasswordGenerator.generate ⟨Length.range 2 5, true, true, true⟩
        (fun _ => 0)).isPanic = false
    ∧ (PasswordGenerator.generate_multiple ⟨Length.range 2 5, true, true, true⟩ 3
        (fun _ => 0)).isPanic = false
    ∧ (PassphraseGenerator.generate ⟨4, "-"⟩ ["alpha", "beta"]
        (fun _ => 0)).isPanic = false
    ∧ (PassphraseGenerator.generate_multiple ⟨4, "-"⟩ ["alpha", "beta"] 3
        (fun _ => 0)).isPanic = false
    ∧ (ZxcvbnAnalysis.evaluate (fun _ => 0) (fun _ => "instant")
        "pw").isPanic = false
    ∧ (ZxcvbnAnalysis.passes_threshold (fun _ => 0) "pw").isPanic = false :=
  operations_no_panic_for_wellformed_lengths ⟨Length.range 2 5, true, true, true⟩
    ⟨4, "-"⟩ ["alpha", "beta"] 3 (fun _ => 0) (fun _ => 0) (fun _ => "instant") "pw"
    (by exact Nat.le_of_lt (by decide))

/-- C10: when capitals, numbers, and symbols are all disabled, the
character pool is exactly the 26 lowercase letters (hence never empty, so
every drawn pool index is in bounds), and whenever the resolved length is
at least 1 generation succeeds with an output of that length consisting
solely of lowercase ASCII letters. -/
theorem lowercase_only_when_all_classes_disabled (config : PasswordConfig)
    (r r1 : Rng) (n : Nat) (hc : config.capitals = false)
    (hn : config.numbers = false) (hs : config.symbols = false)
    (hg : config.length.get_length r = .ok (n, r1)) (h1 : 1 ≤ n) :
    PasswordGenerator.poolOf config = PasswordGenerator.LOWERCASE
    ∧ PasswordGenerator.LOWERCASE.length = 26
    ∧ ∃ pw, (PasswordGenerator.generate config r).valOf = some pw
        ∧ pw.length = n ∧ ∀ c ∈ pw.data, c ∈ PasswordGenerator.LOWERCASE := by
  have hpool : PasswordGenerator.poolOf config = PasswordGenerator.LOWERCASE := by
    unfold PasswordGenerator.poolOf
    rw [hc, hn, hs]
    simp
  refine ⟨hpool, PasswordGenerator.LOWERCASE_length, ?_⟩
  obtain ⟨cs, r2, hd, hlen⟩ :=
    PasswordGenerator.drawChars_total (PasswordGenerator.poolOf_pos config) n r1
  refine ⟨String.mk cs, ?_, hlen, ?_⟩
  · rw [PasswordGenerator.generate_ok_of hg (by omega) hd]
    rfl
  · intro c hcm
    have hmem := PasswordGenerator.drawChars_mem hd c hcm
    rwa [hpool] at hmem

/-- Witness for the C10 theorem at a concrete run. -/
theorem lowercase_only_when_all_classes_disabled_witness :
    PasswordGenerator.poolOf ⟨Length.single 3, false, false, false⟩
        = PasswordGenerator.LOWERCASE
    ∧ PasswordGenerator.LOWERCASE.length = 26
    ∧ ∃ pw, (PasswordGenerator.generate ⟨Length.single 3, false, false, false⟩
          (fun _ => 0)).valOf = some pw
        ∧ pw.length = 3 ∧ ∀ c ∈ pw.data, c ∈ PasswordGenerator.LOWERCASE :=
  lowercase_only_when_all_classes_disabled ⟨Length.single 3, false, false, false⟩
    (fun _ => 0) (fun _ => 0) 3 rfl rfl rfl rfl (by decide)
